import Mathlib

/-!
# Verification of the trading-platform analytics core (`api/ai_services.py`)

Shallow embedding of the analytics engine: technical indicators,
the forecaster, risk assessment, and the portfolio optimizer.

Modelling conventions:
* Python floats are modelled as exact rationals (`ℚ`) except where the
  source takes a square root (`np.std`, `math.sqrt`), which forces `ℝ`.
* `round(x, n)` is modelled as `round (x * 10^n) / 10^n`.  Python uses
  round-half-even tie-breaking while Mathlib `round` is half-up; no value
  computed below ever falls on a tie, so the two agree on everything used.
* Python `/` on plain floats raises `ZeroDivisionError` on a zero
  denominator.  Where a claim's truth depends on that behaviour the
  division is modelled explicitly through `PyResult` (an `exn` outcome);
  divisions whose denominators are irrelevant to every claim use Lean's
  total field division (`x / 0 = 0`).  Divisions on numpy scalars
  (`np.float64`, as produced by `np.mean`/`np.std` and anything derived
  from them) do NOT raise — they yield inf/nan with a RuntimeWarning — and
  are therefore never modelled as exceptions.
* The `random`-derived quantities (`model_confidence`, gaussian noise,
  simulated volatilities) are injected as explicit parameters, matching
  the spec's requirement that the randomness source be injectable.
-/

/-- Outcome of calling a Python function: a returned value, a result-level
error payload (a returned dict carrying an `error` key), or a raised
exception. -/
inductive PyResult (α : Type) where
  | ok (val : α)
  | errResult (msg : String)
  | exn (msg : String)
deriving DecidableEq, Repr

/-- `np.mean` over a rational list (`sum / length`; the empty case, where
numpy would produce NaN, is never reached by any theorem below). -/
def npMean (xs : List ℚ) : ℚ := xs.sum / xs.length

/-- Python's trailing slice `l[-k:]`: the whole list when `k = 0` (since
`-0 == 0`) or when `k ≥ len`, otherwise the last `k` elements. -/
def pyLastSlice (l : List α) (k : ℕ) : List α :=
  if k = 0 then l else l.drop (l.length - k)

/-- Python `round(x, 2)` on rationals (see header note on tie-breaking). -/
def round2 (x : ℚ) : ℚ := (round (x * 100) : ℤ) / 100

/-- Python `round(x, 4)` on rationals. -/
def round4 (x : ℚ) : ℚ := (round (x * 10000) : ℤ) / 10000

/-- `TechnicalIndicators.calculate_sma`: below `period` points the whole-list
mean is replicated; otherwise index `i` gets the mean of `prices[:i+1]` for
`i < period - 1` and of `prices[i-period+1:i+1]` otherwise. -/
def calculate_sma (prices : List ℚ) (period : ℕ) : List ℚ :=
  if prices.length < period then
    List.replicate prices.length (npMean prices)
  else
    (List.range prices.length).map (fun i =>
      if i < period - 1 then npMean (prices.take (i + 1))
      else npMean ((prices.drop (i + 1 - period)).take period))

/-- Modelled from the spec's wording for claim C2: "element at index i is
the mean of all points from the start up to i when fewer than `period`
points precede i, and otherwise the mean of exactly the trailing `period`
points ending at i" — uniformly, the mean of `prices[max 0 (i+1-period) .. i]`. -/
def smaSpec (prices : List ℚ) (period : ℕ) : List ℚ :=
  (List.range prices.length).map (fun i =>
    npMean ((prices.take (i + 1)).drop (i + 1 - period)))

/-- `TechnicalIndicators.calculate_ema`: seed `prices[0]`, multiplier
`2/(period+1)`, each further value `p*m + prev*(1-m)`. -/
def calculate_ema (prices : List ℚ) (period : ℕ) : List ℚ :=
  match prices with
  | [] => []
  | p :: ps =>
    let m : ℚ := 2 / ((period : ℚ) + 1)
    ps.scanl (fun prev x => x * m + prev * (1 - m)) p

/-- The trailing-`period` window of consecutive deltas used by
`calculate_rsi` (`deltas[-period:]` where `deltas[i] = prices[i+1] - prices[i]`). -/
def rsiWindow (prices : List ℚ) (period : ℕ) : List ℚ :=
  pyLastSlice (List.zipWith (fun a b => a - b) prices.tail prices) period

/-- `avg_gain` of `calculate_rsi`: mean of the clamped positive deltas
(`np.mean(gains) if gains else 0`). -/
def rsiAvgGain (prices : List ℚ) (period : ℕ) : ℚ :=
  let gains := (rsiWindow prices period).map (fun d => if 0 < d then d else 0)
  if gains = [] then 0 else npMean gains

/-- `avg_loss` of `calculate_rsi`: mean of the negated negative deltas. -/
def rsiAvgLoss (prices : List ℚ) (period : ℕ) : ℚ :=
  let losses := (rsiWindow prices period).map (fun d => if d < 0 then -d else 0)
  if losses = [] then 0 else npMean losses

/-- `TechnicalIndicators.calculate_rsi`: neutral 50 below `period+1` points;
otherwise averages of trailing-`period` gains and losses, 100 on zero
average loss, else `100 - 100/(1+rs)` rounded to 2 decimals. -/
def calculate_rsi (prices : List ℚ) (period : ℕ) : ℚ :=
  if prices.length < period + 1 then 50
  else if rsiAvgLoss prices period = 0 then 100
  else round2 (100 - 100 / (1 + rsiAvgGain prices period / rsiAvgLoss prices period))

/-- `TechnicalIndicators.calculate_macd`: zeros below 26 points, otherwise
the last values of the EMA12−EMA26 line, its EMA9 signal, and their
difference, each rounded to 4 decimals.  Returned as (macd, signal,
histogram). -/
def calculate_macd (prices : List ℚ) : ℚ × ℚ × ℚ :=
  if prices.length < 26 then (0, 0, 0)
  else
    let e12 := calculate_ema prices 12
    let e26 := calculate_ema prices 26
    let line := (List.range prices.length).map (fun i => e12.getD i 0 - e26.getD i 0)
    let sig := calculate_ema line 9
    let m := line.getLastD 0
    let s := sig.getLastD 0
    (round4 m, round4 s, round4 (m - s))

/-- `TechnicalIndicators.calculate_atr`: mean of the trailing `period` true
ranges, rounded to 4 decimals; 0 below 2 bars. -/
def calculate_atr (high low close : List ℚ) (period : ℕ) : ℚ :=
  if high.length < 2 then 0
  else
    let trList := (List.range (high.length - 1)).map (fun j =>
      let i := j + 1
      max (high.getD i 0 - low.getD i 0)
        (max |high.getD i 0 - close.getD (i - 1) 0|
          |low.getD i 0 - close.getD (i - 1) 0|))
    if trList = [] then 0 else round4 (npMean (pyLastSlice trList period))

/-- Minimum of a nonempty rational list (Python `min`; the empty case, where
Python raises, is never reached below). -/
def npMin (l : List ℚ) : ℚ :=
  match l with
  | [] => 0
  | x :: xs => xs.foldl min x

/-- Maximum of a nonempty rational list (Python `max`). -/
def npMax (l : List ℚ) : ℚ :=
  match l with
  | [] => 0
  | x :: xs => xs.foldl max x

/-- `TechnicalIndicators.calculate_stochastic`: %K over the trailing
`period` bars with the flat-market convention %K = 50, %D reported equal
to %K.  Returned as (k, d). -/
def calculate_stochastic (high low close : List ℚ) (period : ℕ) : ℚ × ℚ :=
  if close.length < period then (50, 50)
  else
    let lowestLow := npMin (pyLastSlice low period)
    let highestHigh := npMax (pyLastSlice high period)
    let k :=
      if highestHigh = lowestLow then 50
      else (close.getLastD 0 - lowestLow) / (highestHigh - lowestLow) * 100
    (round2 k, round2 k)

/-- `np.mean` over a real list. -/
noncomputable def npMeanR (xs : List ℝ) : ℝ := xs.sum / xs.length

/-- `np.std` (population standard deviation): square root of the mean
squared deviation from the mean. -/
noncomputable def npStdR (xs : List ℝ) : ℝ :=
  Real.sqrt (npMeanR (xs.map (fun x => (x - npMeanR xs) ^ 2)))

/-- Python `round(x, 2)` on reals. -/
noncomputable def round2R (x : ℝ) : ℝ := (round (x * 100) : ℤ) / 100

/-- Bollinger band triple. -/
structure BollingerBands where
  upper : ℝ
  middle : ℝ
  lower : ℝ

/-- `TechnicalIndicators.calculate_bollinger_bands`: below `period` points a
degenerate ±2% band around the last price (0 when empty); otherwise
middle = mean and bands = middle ± 2·std of the trailing `period` prices,
rounded to 2 decimals. -/
noncomputable def calculate_bollinger_bands (prices : List ℝ) (period : ℕ) :
    BollingerBands :=
  if prices.length < period then
    let currentPrice := prices.getLastD 0
    ⟨currentPrice * (51 / 50), currentPrice, currentPrice * (49 / 50)⟩
  else
    let window := pyLastSlice prices period
    let sma := npMeanR window
    let std := npStdR window
    ⟨round2R (sma + 2 * std), round2R sma, round2R (sma - 2 * std)⟩

/-- One entry of the forecaster's `predictions` list. -/
structure ForecastPoint where
  period : ℕ
  predicted_price : ℝ
  lower_bound : ℝ
  upper_bound : ℝ

/-- The forecaster's successful return value.  The purely informational
fields filled from injected randomness or the clock (`symbol`,
`confidence`, `model_accuracy`, `last_trained`) are omitted. -/
structure Forecast where
  current_price : ℝ
  predictions : List ForecastPoint
  direction : String
  predicted_change_percent : ℝ
  periods_ahead : ℕ

/-- Python `prices[-k]` (for `1 ≤ k ≤ len`): element `len - k`. -/
def lastIdx (prices : List ℝ) (k : ℕ) : ℝ := prices.getD (prices.length - k) 0

/-- `short_trend` of `LSTMPredictor.predict_price`: relative change over the
last 5 points, 0 when fewer than 5 points. -/
noncomputable def shortTrend (prices : List ℝ) : ℝ :=
  if 5 ≤ prices.length then (lastIdx prices 1 - lastIdx prices 5) / lastIdx prices 5
  else 0

/-- `medium_trend`: relative change over the last 10 points. -/
noncomputable def mediumTrend (prices : List ℝ) : ℝ :=
  if 10 ≤ prices.length then (lastIdx prices 1 - lastIdx prices 10) / lastIdx prices 10
  else 0

/-- `volatility` of `predict_price`: std/mean of the trailing 20 points, or
the fixed default 0.02 below 20 points.  The quotient is a numpy-scalar
division: a zero mean yields inf/nan (no exception) in Python, rendered as
0 by the total division here; no theorem depends on that value. -/
noncomputable def fcVolatility (prices : List ℝ) : ℝ :=
  if 20 ≤ prices.length then
    npStdR (pyLastSlice prices 20) / npMeanR (pyLastSlice prices 20)
  else 1 / 50

/-- Forecast point for step `i = j + 1` of `predict_price`, with the
gaussian draw for that step injected as `noise j`. -/
noncomputable def forecastPoint (noise : ℕ → ℝ) (prices : List ℝ)
    (periodsAhead : ℕ) (j : ℕ) : ForecastPoint :=
  let i : ℕ := j + 1
  let currentPrice := lastIdx prices 1
  let trendFactor := (shortTrend prices * (3 / 5) + mediumTrend prices * (2 / 5)) /
    (periodsAhead : ℝ)
  let predictedChange := trendFactor + noise j
  let predictedPrice := currentPrice * (1 + predictedChange * i * (1 / 10))
  let ciWidth := fcVolatility prices * Real.sqrt i * currentPrice
  ⟨i, round2R predictedPrice, round2R (predictedPrice - ciWidth),
    round2R (predictedPrice + ciWidth)⟩

/-- The successful payload of `predict_price` (reached when no guard in
`predictPrice` fires). -/
noncomputable def mkForecast (noise : ℕ → ℝ) (prices : List ℝ)
    (periodsAhead : ℕ) : Forecast :=
  let currentPrice := lastIdx prices 1
  let predictions := (List.range periodsAhead).map (forecastPoint noise prices periodsAhead)
  let finalPrediction := (predictions.getLastD ⟨0, 0, 0, 0⟩).predicted_price
  { current_price := currentPrice
    predictions := predictions
    direction := if currentPrice < finalPrediction then "bullish" else "bearish"
    predicted_change_percent := round2R ((finalPrediction - currentPrice) / currentPrice * 100)
    periods_ahead := periodsAhead }

open Classical in
/-- `LSTMPredictor.predict_price`: the `InsufficientData` result dict below
10 points; otherwise the plain-float divisions by `prices[-5]` and
`prices[-10]`, the `predictions[-1]` access when `periods_ahead = 0`, and —
only below 20 points, where every value is still a plain float — the final
percent-change division by the last price, raise in Python and are
modelled as `exn` outcomes in source execution order.  The volatility
quotient `np.std(prices[-20:]) / np.mean(prices[-20:])` and, from 20
points on, the final percent-change division operate on numpy scalars
(`np.float64`): division by zero there yields inf/nan with a
RuntimeWarning and the forecast dict is still returned, so those
divisions are NOT modelled as exceptions (the total-division embedding
renders such payload values as 0; no theorem below depends on the payload
in that case). -/
noncomputable def predictPrice (noise : ℕ → ℝ) (prices : List ℝ)
    (periodsAhead : ℕ) : PyResult Forecast :=
  if prices.length < 10 then .errResult "Insufficient data for prediction"
  else if 5 ≤ prices.length ∧ lastIdx prices 5 = 0 then .exn "ZeroDivisionError"
  else if 10 ≤ prices.length ∧ lastIdx prices 10 = 0 then .exn "ZeroDivisionError"
  else if periodsAhead = 0 then .exn "IndexError"
  else if prices.length < 20 ∧ lastIdx prices 1 = 0 then .exn "ZeroDivisionError"
  else .ok (mkForecast noise prices periodsAhead)

/-- `RiskAssessment.calculate_var`: default 5% below 10 returns; otherwise
the absolute return at index `int((1-confidence)·N)` of the ascending
sort, as a percentage rounded to 2 decimals. -/
def calculate_var (returns : List ℚ) (confidence : ℚ) : ℚ :=
  if returns.length < 10 then 1 / 20
  else
    let sortedReturns := returns.mergeSort (fun a b => a ≤ b)
    let index := (⌊(1 - confidence) * returns.length⌋).toNat
    round2 (|sortedReturns.getD index 0| * 100)

/-- `RiskAssessment.calculate_sharpe_ratio`: 0 below 2 samples or on zero
standard deviation; otherwise the annualized excess return per unit of
standard deviation, rounded to 2 decimals. -/
noncomputable def calculate_sharpe_ratio (returns : List ℝ) (riskFreeRate : ℝ) : ℝ :=
  if returns.length < 2 then 0
  else
    let meanReturn := npMeanR returns
    let stdReturn := npStdR returns
    if stdReturn = 0 then 0
    else round2R ((meanReturn - riskFreeRate / 252) / stdReturn * Real.sqrt 252)

/-- `RiskAssessment.calculate_max_drawdown`: running peak (seeded with the
first value) and largest `(peak - value)/peak`, reported as a percentage
rounded to 2 decimals; 0 below 2 points. -/
def calculate_max_drawdown (equityCurve : List ℚ) : ℚ :=
  if equityCurve.length < 2 then 0
  else
    let step := fun (st : ℚ × ℚ) (v : ℚ) =>
      let peak := if st.1 < v then v else st.1
      let dd := (peak - v) / peak
      (peak, if st.2 < dd then dd else st.2)
    round2 ((equityCurve.foldl step (equityCurve.headD 0, 0)).2 * 100)

/-- `RiskAssessment.assess_trade_risk`'s returned record. -/
structure TradeRisk where
  risk_score : ℚ
  risk_level : String
  position_percentage : ℚ
  max_loss_1std : ℚ
  max_loss_2std : ℚ
  recommended_stop_loss : ℚ
  recommended_take_profit : ℚ
  recommendation : String
deriving DecidableEq, Repr

/-- `RiskAssessment.assess_trade_risk`: position size as a share of the
portfolio, 1σ/2σ loss estimates, a clamped 1–10 risk score with level
thresholds at 4 and 7, and stop/take levels.  The division
`position_value / portfolio_value` raises `ZeroDivisionError` in Python
when `portfolio_value = 0`, modelled as an `exn` outcome. -/
def assess_trade_risk (entryPrice positionSize portfolioValue volatility : ℚ) :
    PyResult TradeRisk :=
  if portfolioValue = 0 then .exn "ZeroDivisionError"
  else
    let positionValue := entryPrice * positionSize
    let positionPct := positionValue / portfolioValue * 100
    let maxLoss1 := positionValue * volatility
    let maxLoss2 := positionValue * volatility * 2
    let riskScore := min 10 (max 1 (positionPct / 5 + volatility * 20))
    let stopLoss := entryPrice * (1 - volatility * (3 / 2))
    let takeProfit := entryPrice * (1 + volatility * 2)
    let riskLevel := if riskScore < 4 then "low" else if riskScore < 7 then "medium" else "high"
    .ok
      { risk_score := round (riskScore * 10) / 10
        risk_level := riskLevel
        position_percentage := round2 positionPct
        max_loss_1std := round2 maxLoss1
        max_loss_2std := round2 maxLoss2
        recommended_stop_loss := round2 stopLoss
        recommended_take_profit := round2 takeProfit
        recommendation :=
          if 6 < riskScore then "Proceed with caution" else "Trade appears reasonable" }

/-- A portfolio position as consumed by `portfolio_risk_metrics`
(`p.get('value', 0)` — only the value key is read). -/
structure Position where
  value : ℚ
deriving DecidableEq, Repr

/-- The subset of `portfolio_risk_metrics` output shared by both branches
(the non-empty branch's extra purely-random fields are omitted). -/
structure PortfolioRisk where
  total_risk_score : ℚ
  diversification_score : ℚ
  concentration_risk : String
  var_95 : ℚ
  expected_volatility : ℚ
deriving DecidableEq, Repr

/-- `RiskAssessment.portfolio_risk_metrics`: the all-zero/"N/A" record on an
empty position list; otherwise concentration from the largest position
share (thresholds 25%/50%), diversification `min 10 (2·count)`, and the
injected simulated draws `randVol` (`random.uniform(0.15, 0.35)`) and
`randScore` (`random.uniform(4, 7)`). -/
def portfolio_risk_metrics (randVol randScore : ℚ) (positions : List Position) :
    PortfolioRisk :=
  if positions = [] then
    { total_risk_score := 0
      diversification_score := 0
      concentration_risk := "N/A"
      var_95 := 0
      expected_volatility := 0 }
  else
    let totalValue := (positions.map (·.value)).sum
    let maxPositionPct :=
      if 0 < totalValue then npMax (positions.map (fun p => p.value / totalValue * 100))
      else 0
    let diversification : ℚ := min 10 (2 * positions.length)
    let concentrationLevel :=
      if 50 < maxPositionPct then "high" else if 25 < maxPositionPct then "medium" else "low"
    { total_risk_score := round (randScore * 10) / 10
      diversification_score := diversification
      concentration_risk := concentrationLevel
      var_95 := round2 (randVol * (33 / 20) * 100)
      expected_volatility := round2 (randVol * 100) }

/-- An asset given to `PortfolioOptimizer.optimize_allocation`, with its
volatility and expected return supplied (the source draws random defaults
only when a key is absent; the claims quantify over supplied values). -/
structure Asset where
  symbol : String
  volatility : ℚ
  expected_return : ℚ
deriving DecidableEq, Repr

/-- Risk-tolerance multiplier: conservative 0.3, medium 0.6, aggressive
0.9, defaulting to 0.6. -/
def riskMultOf (riskTolerance : String) : ℚ :=
  if riskTolerance = "conservative" then 3 / 10
  else if riskTolerance = "medium" then 3 / 5
  else if riskTolerance = "aggressive" then 9 / 10
  else 3 / 5

/-- Raw (pre-normalization) weight of one asset: Sharpe-like score
`expected_return/(volatility+0.01)`, asymmetrically scaled by the risk
multiplier, then `(adjusted+1)/4` clamped to `[0.05, 0.40]` via
`max 0.05 (min 0.4 _)`. -/
def rawWeight (a : Asset) (riskMult : ℚ) : ℚ :=
  let score := a.expected_return / (a.volatility + 1 / 100)
  let adjustedScore := if 0 < score then score * riskMult else score * (1 - riskMult)
  max (1 / 20) (min (2 / 5) ((adjustedScore + 1) / 4))

/-- One entry of the optimizer's `optimal_allocation` list. -/
structure AllocationEntry where
  symbol : String
  weight : ℚ
  expected_return : ℚ
  volatility : ℚ
deriving DecidableEq, Repr

/-- The optimizer's successful return value (the `rebalancing_needed`
coin-flip and the recommendation string are omitted as purely
informational). -/
structure AllocationResult where
  optimal_allocation : List AllocationEntry
  expected_portfolio_return : ℚ
  expected_portfolio_volatility : ℚ
  sharpe_ratio : ℚ
deriving DecidableEq, Repr

/-- `total_weight` of `optimize_allocation`: the sum of the raw weights. -/
def totalRawWeight (assets : List Asset) (riskTolerance : String) : ℚ :=
  (assets.map (fun a => rawWeight a (riskMultOf riskTolerance))).sum

/-- The `optimal_allocation` list of `optimize_allocation`: each raw weight
normalized by the total and rounded to 4 decimals, with the asset's
expected return and volatility as percentages rounded to 2 decimals. -/
def allocationEntries (assets : List Asset) (riskTolerance : String) :
    List AllocationEntry :=
  assets.map (fun a =>
    AllocationEntry.mk a.symbol
      (round4 (rawWeight a (riskMultOf riskTolerance) / totalRawWeight assets riskTolerance))
      (round2 (a.expected_return * 100)) (round2 (a.volatility * 100)))

/-- `portfolio_return` of `optimize_allocation`: weighted sum of the
per-entry expected returns. -/
def allocPortfolioReturn (assets : List Asset) (riskTolerance : String) : ℚ :=
  ((allocationEntries assets riskTolerance).map (fun w => w.weight * w.expected_return)).sum

/-- `portfolio_volatility` of `optimize_allocation`: weighted sum of the
per-entry volatilities, discounted by the fixed 0.7 diversification factor. -/
def allocPortfolioVolatility (assets : List Asset) (riskTolerance : String) : ℚ :=
  ((allocationEntries assets riskTolerance).map (fun w => w.weight * w.volatility)).sum * (7 / 10)

/-- `PortfolioOptimizer.optimize_allocation`: the `No assets provided`
result dict on an empty list; otherwise per-asset raw weights normalized
by their total (each rounded to 4 decimals) plus weighted portfolio
metrics.  The per-asset division by `volatility + 0.01` and the final
division by `portfolio_volatility + 0.01` raise `ZeroDivisionError` in
Python on zero denominators, modelled as `exn` outcomes. -/
def optimize_allocation (assets : List Asset) (riskTolerance : String) :
    PyResult AllocationResult :=
  if assets = [] then .errResult "No assets provided"
  else if ∃ a ∈ assets, a.volatility + 1 / 100 = 0 then .exn "ZeroDivisionError"
  else if allocPortfolioVolatility assets riskTolerance + 1 / 100 = 0 then
    .exn "ZeroDivisionError"
  else
    .ok
      { optimal_allocation := allocationEntries assets riskTolerance
        expected_portfolio_return := round2 (allocPortfolioReturn assets riskTolerance)
        expected_portfolio_volatility := round2 (allocPortfolioVolatility assets riskTolerance)
        sharpe_ratio := round2 (allocPortfolioReturn assets riskTolerance /
          (allocPortfolioVolatility assets riskTolerance + 1 / 100)) }

/-- An allocation entry as consumed by `suggest_rebalancing`
(`a['symbol']`, `a['weight']`). -/
structure WeightedSymbol where
  symbol : String
  weight : ℚ
deriving DecidableEq, Repr

/-- Python dict built as `{a['symbol']: a['weight'] for a in l}` then read
 with `.get(s, 0)`: the last binding of a symbol wins, absent symbols give 0. -/
def dictWeight (l : List WeightedSymbol) (s : String) : ℚ :=
  ((l.reverse.find? (fun a => a.symbol = s)).map (·.weight)).getD 0

/-- One rebalancing suggestion. -/
structure RebalanceSuggestion where
  symbol : String
  action : String
  current_weight : ℚ
  target_weight : ℚ
  change_percentage : ℚ
deriving DecidableEq, Repr

/-- `PortfolioOptimizer.suggest_rebalancing`: over the union of symbols of
both allocations, emit a buy/sell suggestion whenever the weight
difference exceeds the 1% dead-band.  (Python iterates a set, whose order
is unspecified; the union is modelled in first-appearance order, which
every claim below is insensitive to.) -/
def suggest_rebalancing (currentAllocation targetAllocation : List WeightedSymbol) :
    List RebalanceSuggestion :=
  let allSymbols :=
    (currentAllocation.map (·.symbol) ++ targetAllocation.map (·.symbol)).dedup
  allSymbols.filterMap (fun s =>
    let currentWeight := dictWeight currentAllocation s
    let targetWeight := dictWeight targetAllocation s
    let diff := targetWeight - currentWeight
    if 1 / 100 < |diff| then
      some
        ⟨s, if 0 < diff then "buy" else "sell", round2 (currentWeight * 100),
          round2 (targetWeight * 100), round2 (diff * 100)⟩
    else none)

/-! ## Helper lemmas -/

lemma roundQ_mono {x y : ℚ} (h : x ≤ y) : round x ≤ round y := by
  rw [round_eq, round_eq]
  exact Int.floor_mono (by linarith)

lemma roundR_mono {x y : ℝ} (h : x ≤ y) : round x ≤ round y := by
  rw [round_eq, round_eq]
  exact Int.floor_mono (by linarith)

lemma round2_mono {x y : ℚ} (h : x ≤ y) : round2 x ≤ round2 y := by
  unfold round2
  have h1 : round (x * 100) ≤ round (y * 100) := roundQ_mono (by linarith)
  have h2 : ((round (x * 100) : ℤ) : ℚ) ≤ ((round (y * 100) : ℤ) : ℚ) := by exact_mod_cast h1
  linarith

lemma round2_nonneg {x : ℚ} (h : 0 ≤ x) : 0 ≤ round2 x := by
  have := round2_mono h
  simpa [round2] using this

lemma round4_nonneg {x : ℚ} (h : 0 ≤ x) : 0 ≤ round4 x := by
  have h1 : round (0 * (10000 : ℚ)) ≤ round (x * 10000) := roundQ_mono (by linarith)
  simp only [zero_mul, round_zero] at h1
  unfold round4
  exact div_nonneg (by exact_mod_cast h1) (by norm_num)

lemma round2R_mono {x y : ℝ} (h : x ≤ y) : round2R x ≤ round2R y := by
  unfold round2R
  have h1 : round (x * 100) ≤ round (y * 100) := roundR_mono (by linarith)
  have h2 : ((round (x * 100) : ℤ) : ℝ) ≤ ((round (y * 100) : ℤ) : ℝ) := by exact_mod_cast h1
  linarith

lemma npMean_nonneg {xs : List ℚ} (h : ∀ x ∈ xs, 0 ≤ x) : 0 ≤ npMean xs :=
  div_nonneg (List.sum_nonneg h) (Nat.cast_nonneg _)

lemma abs_round4_sub (x : ℚ) : |round4 x - x| ≤ 1 / 20000 := by
  have h := abs_sub_round (x * 10000)
  rw [abs_sub_comm] at h
  unfold round4
  have : (round (x * 10000) : ℚ) / 10000 - x = ((round (x * 10000) : ℚ) - x * 10000) / 10000 := by
    ring
  rw [this, abs_div, abs_of_pos (show (0:ℚ) < 10000 by norm_num)]
  linarith

lemma sum_map_round4_close (l : List ℚ) :
    |(l.map round4).sum - l.sum| ≤ l.length * (1 / 20000) := by
  induction l with
  | nil => simp
  | cons x xs ih =>
    simp only [List.map_cons, List.sum_cons, List.length_cons]
    have h1 := abs_round4_sub x
    have h2 : round4 x + (xs.map round4).sum - (x + xs.sum) =
        (round4 x - x) + ((xs.map round4).sum - xs.sum) := by ring
    calc |round4 x + (xs.map round4).sum - (x + xs.sum)|
        ≤ |round4 x - x| + |(xs.map round4).sum - xs.sum| := by
          rw [h2]; exact abs_add _ _
      _ ≤ 1 / 20000 + xs.length * (1 / 20000) := by linarith
      _ = ((xs.length + 1 : ℕ) : ℚ) * (1 / 20000) := by push_cast; ring

/-! ## C7: rebalancing a portfolio against itself yields no suggestions -/

/-- C7: for every allocation list `A`, `suggest_rebalancing A A` returns the
empty suggestion list — identical current and target weights never clear
the 1% dead-band. -/
theorem rebalance_identical_no_suggestions (A : List WeightedSymbol) :
    suggest_rebalancing A A = [] := by
  unfold suggest_rebalancing
  apply List.filterMap_eq_nil_iff.mpr
  intro s _
  simp only [sub_self, abs_zero]
  norm_num

/-! ## C9: determinism of the technical-indicator functions -/

/-- C9: every `TechnicalIndicators` function is deterministic — two calls
with identical input sequences and parameters return identical outputs;
none of the embedded functions consults a randomness source or hidden
global state (each is a pure function of the arguments shown). -/
theorem indicators_deterministic (p q hi1 hi2 lo1 lo2 cl1 cl2 : List ℚ)
    (r1 r2 : List ℝ) (n m : ℕ) (hpq : p = q) (hn : n = m) (hh : hi1 = hi2)
    (hl : lo1 = lo2) (hc : cl1 = cl2) (hr : r1 = r2) :
    calculate_sma p n = calculate_sma q m ∧
    calculate_ema p n = calculate_ema q m ∧
    calculate_rsi p n = calculate_rsi q m ∧
    calculate_macd p = calculate_macd q ∧
    calculate_bollinger_bands r1 n = calculate_bollinger_bands r2 m ∧
    calculate_atr hi1 lo1 cl1 n = calculate_atr hi2 lo2 cl2 m ∧
    calculate_stochastic hi1 lo1 cl1 n = calculate_stochastic hi2 lo2 cl2 m := by
  subst hpq hn hh hl hc hr
  exact ⟨rfl, rfl, rfl, rfl, rfl, rfl, rfl⟩

/-- Witness for C9 at concrete inputs. -/
theorem indicators_deterministic_witness :
    calculate_sma [1, 2, 3] 2 = calculate_sma [1, 2, 3] 2 ∧
    calculate_ema [1, 2, 3] 2 = calculate_ema [1, 2, 3] 2 ∧
    calculate_rsi [1, 2, 3] 2 = calculate_rsi [1, 2, 3] 2 ∧
    calculate_macd [1, 2, 3] = calculate_macd [1, 2, 3] ∧
    calculate_bollinger_bands [(1 : ℝ), 2] 2 = calculate_bollinger_bands [(1 : ℝ), 2] 2 ∧
    calculate_atr [1, 2] [0, 1] [1, 1] 2 = calculate_atr [1, 2] [0, 1] [1, 1] 2 ∧
    calculate_stochastic [1, 2] [0, 1] [1, 1] 2 = calculate_stochastic [1, 2] [0, 1] [1, 1] 2 :=
  indicators_deterministic [1, 2, 3] [1, 2, 3] [1, 2] [1, 2] [0, 1] [0, 1] [1, 1] [1, 1]
    [(1 : ℝ), 2] [(1 : ℝ), 2] 2 2 rfl rfl rfl rfl rfl rfl

/-! ## C3: risk functions on empty/degenerate input -/

/-- C3 (code bug): the empty-input cases all return defaults as claimed —
`calculate_var`, `calculate_sharpe_ratio`, `calculate_max_drawdown` and
`portfolio_risk_metrics` return result values on empty input — but
`assess_trade_risk` does NOT return a record when `portfolio_value = 0`:
the division `position_value / portfolio_value` raises
`ZeroDivisionError`, contradicting the spec's requirement that no risk
function raise on degenerate numeric input. -/
theorem risk_functions_degenerate_inputs :
    assess_trade_risk 100 1 0 (1 / 5) = .exn "ZeroDivisionError" ∧
    calculate_var [] (19 / 20) = 1 / 20 ∧
    calculate_sharpe_ratio [] (1 / 50) = 0 ∧
    calculate_max_drawdown [] = 0 ∧
    (∀ randVol randScore : ℚ,
      portfolio_risk_metrics randVol randScore [] =
        { total_risk_score := 0, diversification_score := 0, concentration_risk := "N/A",
          var_95 := 0, expected_volatility := 0 }) := by
  refine ⟨by norm_num [assess_trade_risk], by norm_num [calculate_var], ?_,
    by norm_num [calculate_max_drawdown], fun randVol randScore => by
      simp [portfolio_risk_metrics]⟩
  unfold calculate_sharpe_ratio
  norm_num

/-! ## C1: RSI range and flat-series value -/

lemma rsiAvgGain_nonneg (prices : List ℚ) (period : ℕ) : 0 ≤ rsiAvgGain prices period := by
  unfold rsiAvgGain
  dsimp only
  split_ifs with h
  · exact le_refl 0
  · refine npMean_nonneg ?_
    intro x hx
    obtain ⟨d, _, rfl⟩ := List.mem_map.mp hx
    split_ifs with hd
    · exact le_of_lt hd
    · exact le_refl 0

lemma rsiAvgLoss_nonneg (prices : List ℚ) (period : ℕ) : 0 ≤ rsiAvgLoss prices period := by
  unfold rsiAvgLoss
  dsimp only
  split_ifs with h
  · exact le_refl 0
  · refine npMean_nonneg ?_
    intro x hx
    obtain ⟨d, _, rfl⟩ := List.mem_map.mp hx
    split_ifs with hd
    · linarith
    · exact le_refl 0

lemma round2_hundred : round2 (100 : ℚ) = 100 := by
  unfold round2
  norm_num [round_eq]

lemma rsiWindow_replicate (c : ℚ) (n period : ℕ) :
    ∃ m, rsiWindow (List.replicate n c) period = List.replicate m 0 := by
  unfold rsiWindow
  rw [List.tail_replicate, List.zipWith_replicate, sub_self]
  unfold pyLastSlice
  split_ifs
  · exact ⟨_, rfl⟩
  · exact ⟨_, List.drop_replicate ..⟩

lemma rsiAvgLoss_replicate (c : ℚ) (n period : ℕ) :
    rsiAvgLoss (List.replicate n c) period = 0 := by
  obtain ⟨m, hm⟩ := rsiWindow_replicate c n period
  unfold rsiAvgLoss
  dsimp only
  rw [hm, List.map_replicate]
  have h0 : (if (0 : ℚ) < 0 then -(0 : ℚ) else 0) = 0 := by norm_num
  rw [h0]
  split_ifs with h
  · rfl
  · simp [npMean]

/-- C1 counterexample: on the flat 15-point series of ones (with the
default period 14) the code returns 100, not the claimed 50 — the flat
series hits the zero-average-loss branch. -/
theorem rsi_flat_long_counterexample :
    calculate_rsi [1, 1, 1, 1, 1, 1, 1, 1, 1, 1, 1, 1, 1, 1, 1] 14 = 100 ∧
    (100 : ℚ) ≠ 50 := by
  constructor
  · norm_num [calculate_rsi, rsiAvgLoss, rsiWindow, pyLastSlice, npMean]
  · norm_num

/-- C1 amended: `calculate_rsi` always lies in [0, 100]; a flat series
returns 50 only while it is shorter than `period + 1` points, and returns
100 (the zero-average-loss sentinel) from `period + 1` points on. -/
theorem rsi_range_and_flat_values :
    (∀ (prices : List ℚ) (period : ℕ),
      0 ≤ calculate_rsi prices period ∧ calculate_rsi prices period ≤ 100) ∧
    (∀ (c : ℚ) (n period : ℕ), n < period + 1 →
      calculate_rsi (List.replicate n c) period = 50) ∧
    (∀ (c : ℚ) (n period : ℕ), period + 1 ≤ n →
      calculate_rsi (List.replicate n c) period = 100) := by
  refine ⟨fun prices period => ?_, fun c n period h => ?_, fun c n period h => ?_⟩
  · unfold calculate_rsi
    split_ifs with h1 h2
    · norm_num
    · norm_num
    · have hg := rsiAvgGain_nonneg prices period
      have hl := rsiAvgLoss_nonneg prices period
      have hl2 : 0 < rsiAvgLoss prices period := lt_of_le_of_ne hl (Ne.symm h2)
      have hrs : 0 ≤ rsiAvgGain prices period / rsiAvgLoss prices period :=
        div_nonneg hg (le_of_lt hl2)
      have h1rs : (1 : ℚ) ≤ 1 + rsiAvgGain prices period / rsiAvgLoss prices period := by
        linarith
      have hdiv1 : 100 / (1 + rsiAvgGain prices period / rsiAvgLoss prices period) ≤ 100 :=
        div_le_self (by norm_num) h1rs
      have hdiv0 : 0 ≤ 100 / (1 + rsiAvgGain prices period / rsiAvgLoss prices period) :=
        div_nonneg (by norm_num) (by linarith)
      constructor
      · exact round2_nonneg (by linarith)
      · calc round2 (100 - 100 / (1 + rsiAvgGain prices period / rsiAvgLoss prices period))
            ≤ round2 100 := round2_mono (by linarith)
          _ = 100 := round2_hundred
  · have hn : (List.replicate n c).length < period + 1 := by
      rw [List.length_replicate]; exact h
    unfold calculate_rsi
    rw [if_pos hn]
  · have hn : ¬ (List.replicate n c).length < period + 1 := by
      rw [List.length_replicate]; omega
    unfold calculate_rsi
    rw [if_neg hn, if_pos (rsiAvgLoss_replicate c n period)]

/-- Witness for C1's amended theorem at concrete inputs. -/
theorem rsi_range_and_flat_values_witness :
    (0 ≤ calculate_rsi [1, 2, 3] 14 ∧ calculate_rsi [1, 2, 3] 14 ≤ 100) ∧
    calculate_rsi (List.replicate 3 (5 : ℚ)) 14 = 50 ∧
    calculate_rsi (List.replicate 15 (5 : ℚ)) 14 = 100 :=
  ⟨rsi_range_and_flat_values.1 [1, 2, 3] 14,
    rsi_range_and_flat_values.2.1 5 3 14 (by norm_num),
    rsi_range_and_flat_values.2.2 5 15 14 (by norm_num)⟩

/-! ## C2: SMA as windowed means -/

/-- C2 counterexample: on the 2-point list `[1, 3]` with period 20 the code
returns the whole-list mean at every index (`[2, 2]`), not the claimed
progressive prefix means (`smaSpec` gives `[1, 2]`): the short-input
branch replicates one overall mean instead of averaging from the start. -/
theorem sma_short_input_counterexample :
    calculate_sma [1, 3] 20 = [2, 2] ∧ smaSpec [1, 3] 20 = [1, 2] ∧
    ([2, 2] : List ℚ) ≠ [1, 2] := by
  refine ⟨?_, ?_, by norm_num⟩
  · norm_num [calculate_sma, npMean, List.replicate]
  · norm_num [smaSpec, npMean, List.range_succ]

/-- C2 amended: for every price list whose length is at least the period
(period ≥ 1), `calculate_sma` equals the spec-side description `smaSpec` —
a same-length list whose element at index `i` is the mean of all points up
to `i` while fewer than `period` points are available, and of exactly the
trailing `period` points otherwise. -/
theorem sma_matches_windowed_mean_spec (prices : List ℚ) (period : ℕ)
    (h1 : 1 ≤ period) (h2 : period ≤ prices.length) :
    calculate_sma prices period = smaSpec prices period := by
  unfold calculate_sma smaSpec
  rw [if_neg (not_lt.mpr h2)]
  apply List.map_congr_left
  intro i hi
  rw [List.mem_range] at hi
  by_cases hip : i < period - 1
  · rw [if_pos hip]
    rw [show i + 1 - period = 0 by omega, List.drop_zero]
  · rw [if_neg hip]
    rw [List.drop_take]
    rw [show i + 1 - (i + 1 - period) = period by omega]

/-- Witness for C2's amended theorem at a concrete input. -/
theorem sma_matches_windowed_mean_spec_witness :
    calculate_sma [1, 3, 5] 2 = smaSpec [1, 3, 5] 2 :=
  sma_matches_windowed_mean_spec [1, 3, 5] 2 (by norm_num) (by simp)

/-! ## C8: Bollinger band ordering -/

/-- C8: for every real price list whose length is at least the period
(taking `period ≥ 1`, so that the window is nonempty as in every Python
call that returns a number rather than NaN), the computed bands satisfy
`lower ≤ middle ≤ upper`: the standard deviation is nonnegative and
2-decimal rounding is monotone. -/
theorem bollinger_band_ordering (prices : List ℝ) (period : ℕ)
    (h1 : 1 ≤ period) (h2 : period ≤ prices.length) :
    (calculate_bollinger_bands prices period).lower ≤
      (calculate_bollinger_bands prices period).middle ∧
    (calculate_bollinger_bands prices period).middle ≤
      (calculate_bollinger_bands prices period).upper := by
  have hstd : 0 ≤ npStdR (pyLastSlice prices period) := Real.sqrt_nonneg _
  unfold calculate_bollinger_bands
  rw [if_neg (not_lt.mpr h2)]
  dsimp only
  exact ⟨round2R_mono (by linarith), round2R_mono (by linarith)⟩

/-- Witness for C8 at a concrete input. -/
theorem bollinger_band_ordering_witness :
    (calculate_bollinger_bands [2] 1).lower ≤ (calculate_bollinger_bands [2] 1).middle ∧
    (calculate_bollinger_bands [2] 1).middle ≤ (calculate_bollinger_bands [2] 1).upper :=
  bollinger_band_ordering [2] 1 (by norm_num) (by simp)

/-! ## C4 and C6: portfolio optimizer -/

lemma rawWeight_bounds (a : Asset) (mult : ℚ) :
    1 / 20 ≤ rawWeight a mult ∧ rawWeight a mult ≤ 2 / 5 := by
  unfold rawWeight
  exact ⟨le_max_left _ _, max_le (by norm_num) (min_le_left _ _)⟩

lemma totalRawWeight_pos (assets : List Asset) (rt : String) (hne : assets ≠ []) :
    0 < totalRawWeight assets rt := by
  unfold totalRawWeight
  apply List.sum_pos
  · intro x hx
    obtain ⟨a, _, rfl⟩ := List.mem_map.mp hx
    calc (0 : ℚ) < 1 / 20 := by norm_num
      _ ≤ rawWeight a (riskMultOf rt) := (rawWeight_bounds a _).1
  · simpa using hne

lemma allocationEntries_weight_nonneg (assets : List Asset) (rt : String)
    (hne : assets ≠ []) : ∀ w ∈ allocationEntries assets rt, 0 ≤ w.weight := by
  intro w hw
  obtain ⟨a, _, rfl⟩ := List.mem_map.mp hw
  refine round4_nonneg (div_nonneg ?_ (le_of_lt (totalRawWeight_pos assets rt hne)))
  calc (0 : ℚ) ≤ 1 / 20 := by norm_num
    _ ≤ rawWeight a (riskMultOf rt) := (rawWeight_bounds a _).1

lemma allocPortfolioVolatility_nonneg (assets : List Asset) (rt : String)
    (hne : assets ≠ []) (hvol : ∀ a ∈ assets, 0 ≤ a.volatility) :
    0 ≤ allocPortfolioVolatility assets rt := by
  unfold allocPortfolioVolatility
  apply mul_nonneg _ (by norm_num)
  apply List.sum_nonneg
  intro x hx
  obtain ⟨w, hw, rfl⟩ := List.mem_map.mp hx
  apply mul_nonneg (allocationEntries_weight_nonneg assets rt hne w hw)
  obtain ⟨a, ha, rfl⟩ := List.mem_map.mp hw
  exact round2_nonneg (mul_nonneg (hvol a ha) (by norm_num))

lemma optimize_allocation_ok (assets : List Asset) (rt : String)
    (hne : assets ≠ []) (hvol : ∀ a ∈ assets, 0 ≤ a.volatility) :
    optimize_allocation assets rt =
      .ok
        { optimal_allocation := allocationEntries assets rt
          expected_portfolio_return := round2 (allocPortfolioReturn assets rt)
          expected_portfolio_volatility := round2 (allocPortfolioVolatility assets rt)
          sharpe_ratio := round2 (allocPortfolioReturn assets rt /
            (allocPortfolioVolatility assets rt + 1 / 100)) } := by
  unfold optimize_allocation
  rw [if_neg hne, if_neg, if_neg]
  · have h1 := allocPortfolioVolatility_nonneg assets rt hne hvol
    intro h
    have : allocPortfolioVolatility assets rt = -(1 / 100) := by linarith
    linarith [h1, this ▸ h1]
  · rintro ⟨a, ha, h⟩
    have := hvol a ha
    linarith

lemma allocation_weights_sum_close (assets : List Asset) (rt : String)
    (hne : assets ≠ []) :
    |((allocationEntries assets rt).map (fun w => w.weight)).sum - 1| ≤
      assets.length * (1 / 20000) := by
  have hT := totalRawWeight_pos assets rt hne
  have hmap : (allocationEntries assets rt).map (fun w => w.weight) =
      (assets.map (fun a => rawWeight a (riskMultOf rt) / totalRawWeight assets rt)).map
        round4 := by
    unfold allocationEntries
    rw [List.map_map, List.map_map]
    rfl
  have hsum : (assets.map (fun a => rawWeight a (riskMultOf rt) / totalRawWeight assets rt)).sum = 1 := by
    have : (assets.map (fun a => rawWeight a (riskMultOf rt) / totalRawWeight assets rt)) =
        assets.map (fun a => rawWeight a (riskMultOf rt) * (totalRawWeight assets rt)⁻¹) := by
      simp [div_eq_mul_inv]
    rw [this, List.sum_map_mul_right]
    rw [show (assets.map fun a => rawWeight a (riskMultOf rt)).sum = totalRawWeight assets rt
      from rfl]
    exact mul_inv_cancel₀ (ne_of_gt hT)
  have hlen : (assets.map (fun a => rawWeight a (riskMultOf rt) / totalRawWeight assets rt)).length =
      assets.length := List.length_map _ _
  calc |((allocationEntries assets rt).map (fun w => w.weight)).sum - 1|
      = |((assets.map (fun a => rawWeight a (riskMultOf rt) / totalRawWeight assets rt)).map
          round4).sum -
        (assets.map (fun a => rawWeight a (riskMultOf rt) / totalRawWeight assets rt)).sum| := by
        rw [hmap, hsum]
    _ ≤ (assets.map (fun a => rawWeight a (riskMultOf rt) / totalRawWeight assets rt)).length *
        (1 / 20000) := sum_map_round4_close _
    _ = assets.length * (1 / 20000) := by rw [hlen]

/-- C4 amended: every raw (pre-normalization) weight lies in [0.05, 0.40]
by the clamp; and for every non-empty asset list with supplied nonnegative
volatilities and expected returns, the returned normalized weights sum to
1.0 within `n · 5·10⁻⁵` (each of the `n` weights is rounded to 4 decimal
places) — but not within the claimed 1e-6 (see the counterexample). -/
theorem allocation_weight_bounds_and_sum :
    (∀ (a : Asset) (mult : ℚ), 1 / 20 ≤ rawWeight a mult ∧ rawWeight a mult ≤ 2 / 5) ∧
    (∀ (assets : List Asset) (rt : String), assets ≠ [] →
      (∀ a ∈ assets, 0 ≤ a.volatility) →
      ∃ r, optimize_allocation assets rt = .ok r ∧
        |((r.optimal_allocation.map (fun w => w.weight)).sum) - 1| ≤
          assets.length * (1 / 20000)) := by
  refine ⟨rawWeight_bounds, fun assets rt hne hvol => ?_⟩
  refine ⟨_, optimize_allocation_ok assets rt hne hvol, ?_⟩
  exact allocation_weights_sum_close assets rt hne

/-- Witness for C4's amended theorem at a concrete input. -/
theorem allocation_weight_bounds_and_sum_witness :
    (1 / 20 ≤ rawWeight ⟨"A", 1 / 4, 1 / 10⟩ (3 / 5) ∧
      rawWeight ⟨"A", 1 / 4, 1 / 10⟩ (3 / 5) ≤ 2 / 5) ∧
    ∃ r, optimize_allocation [⟨"A", 1 / 4, 1 / 10⟩] "medium" = .ok r ∧
      |((r.optimal_allocation.map (fun w => w.weight)).sum) - 1| ≤
        ([(⟨"A", 1 / 4, 1 / 10⟩ : Asset)].length : ℚ) * (1 / 20000) :=
  ⟨allocation_weight_bounds_and_sum.1 ⟨"A", 1 / 4, 1 / 10⟩ (3 / 5),
    allocation_weight_bounds_and_sum.2 [⟨"A", 1 / 4, 1 / 10⟩] "medium" (by simp)
      (by intro a ha; simp at ha; rw [ha]; norm_num)⟩

/-- The normalized weights of a successful optimizer result (empty on an
error or exception outcome). -/
def allocationWeights : PyResult AllocationResult → List ℚ
  | .ok r => r.optimal_allocation.map (fun w => w.weight)
  | _ => []

/-- C4 counterexample: three identical assets each get normalized weight
`round4 (1/3) = 0.3333`, so the returned weights sum to 0.9999 — off from
1.0 by 10⁻⁴, far outside the claimed 1e-6 tolerance. -/
theorem allocation_sum_tolerance_counterexample :
    (allocationWeights (optimize_allocation
      [⟨"A", 3 / 10, 1 / 10⟩, ⟨"B", 3 / 10, 1 / 10⟩, ⟨"C", 3 / 10, 1 / 10⟩]
      "medium")).sum = 9999 / 10000 ∧
    ¬ |(9999 : ℚ) / 10000 - 1| ≤ 1 / 1000000 := by
  constructor
  · have hm : riskMultOf "medium" = 3 / 5 := by
      norm_num [riskMultOf]
      decide
    have hne : ¬([⟨"A", 3 / 10, 1 / 10⟩, ⟨"B", 3 / 10, 1 / 10⟩,
        ⟨"C", 3 / 10, 1 / 10⟩] : List Asset) = [] := by simp
    norm_num [optimize_allocation, allocationEntries, totalRawWeight,
      allocPortfolioVolatility, allocationWeights, rawWeight, hm, hne, round4, round2,
      round_eq]
  · rw [abs_of_nonpos (by norm_num)]
    norm_num

/-- C6 counterexample: a non-empty asset list with a supplied volatility of
exactly −0.01 makes the score division `expected_return / (volatility + 0.01)`
raise `ZeroDivisionError` — the call does not return an allocation. -/
theorem optimize_negative_vol_crash :
    optimize_allocation [⟨"A", -1 / 100, 1 / 10⟩] "medium" = .exn "ZeroDivisionError" := by
  have hne : ¬([⟨"A", -1 / 100, 1 / 10⟩] : List Asset) = [] := by simp
  have hex : ∃ a ∈ ([⟨"A", -1 / 100, 1 / 10⟩] : List Asset), a.volatility + 1 / 100 = 0 :=
    ⟨⟨"A", -1 / 100, 1 / 10⟩, by simp, by norm_num⟩
  unfold optimize_allocation
  rw [if_neg hne, if_pos hex]

/-- C6 amended: `optimize_allocation` returns the `NoAssetsError` result
exactly on the empty list, and returns an allocation with no error on
every non-empty list whose supplied volatilities are nonnegative (with a
volatility of exactly −0.01 it instead raises, see the counterexample). -/
theorem optimize_error_iff_empty :
    (∀ rt, optimize_allocation [] rt = .errResult "No assets provided") ∧
    (∀ (assets : List Asset) (rt : String), assets ≠ [] →
      (∀ a ∈ assets, 0 ≤ a.volatility) →
      ∃ r, optimize_allocation assets rt = .ok r) := by
  refine ⟨fun rt => ?_, fun assets rt hne hvol =>
    ⟨_, optimize_allocation_ok assets rt hne hvol⟩⟩
  unfold optimize_allocation
  rw [if_pos rfl]

/-- Witness for C6's amended theorem at concrete inputs. -/
theorem optimize_error_iff_empty_witness :
    optimize_allocation [] "medium" = .errResult "No assets provided" ∧
    ∃ r, optimize_allocation [⟨"A", 1 / 4, 1 / 10⟩] "aggressive" = .ok r :=
  ⟨optimize_error_iff_empty.1 "medium",
    optimize_error_iff_empty.2 [⟨"A", 1 / 4, 1 / 10⟩] "aggressive" (by simp)
      (by intro a ha; simp only [List.mem_singleton] at ha; rw [ha]; norm_num)⟩

/-! ## C5 and C10: the forecaster -/

lemma lastIdx_pos (prices : List ℝ) (k : ℕ) (hk : 1 ≤ k) (hkl : k ≤ prices.length)
    (hpos : ∀ x ∈ prices, 0 < x) : 0 < lastIdx prices k := by
  unfold lastIdx
  have h : prices.length - k < prices.length := by omega
  rw [List.getD_eq_getElem prices 0 h]
  exact hpos _ (List.getElem_mem h)

lemma trailingMean_pos (prices : List ℝ) (h20 : 20 ≤ prices.length)
    (hpos : ∀ x ∈ prices, 0 < x) : 0 < npMeanR (pyLastSlice prices 20) := by
  unfold pyLastSlice npMeanR
  rw [if_neg (by norm_num : ¬(20 : ℕ) = 0)]
  have hlen : (prices.drop (prices.length - 20)).length = 20 := by
    rw [List.length_drop]
    omega
  apply div_pos
  · apply List.sum_pos
    · intro x hx
      exact hpos x (List.mem_of_mem_drop hx)
    · intro hnil
      rw [hnil] at hlen
      simp at hlen
  · rw [hlen]
    norm_num

lemma fcVolatility_nonneg (prices : List ℝ) (hpos : ∀ x ∈ prices, 0 < x) :
    0 ≤ fcVolatility prices := by
  unfold fcVolatility
  split_ifs with h
  · exact div_nonneg (Real.sqrt_nonneg _) (le_of_lt (trailingMean_pos prices h hpos))
  · norm_num

lemma predictPrice_eq_ok (noise : ℕ → ℝ) (prices : List ℝ) (periodsAhead : ℕ)
    (h10 : 10 ≤ prices.length) (h5 : lastIdx prices 5 ≠ 0)
    (hm : lastIdx prices 10 ≠ 0) (hp : periodsAhead ≠ 0)
    (h1 : prices.length < 20 → lastIdx prices 1 ≠ 0) :
    predictPrice noise prices periodsAhead = .ok (mkForecast noise prices periodsAhead) := by
  unfold predictPrice
  rw [if_neg (by omega : ¬ prices.length < 10),
    if_neg (fun h => h5 h.2 : ¬(5 ≤ prices.length ∧ lastIdx prices 5 = 0)),
    if_neg (fun h => hm h.2 : ¬(10 ≤ prices.length ∧ lastIdx prices 10 = 0)),
    if_neg hp,
    if_neg (fun h => h1 h.1 h.2 : ¬(prices.length < 20 ∧ lastIdx prices 1 = 0))]

/-- C5 counterexample: a 10-point series whose 5th-from-last price is 0
(here `[1,1,1,1,1,0,1,1,1,1]`) makes the `short_trend` division
`(prices[-1] - prices[-5]) / prices[-5]` raise `ZeroDivisionError` — so a
length ≥ 10 does not guarantee a forecast with no error. -/
theorem predict_zero_reference_price_crash :
    predictPrice (fun _ => 0) [1, 1, 1, 1, 1, 0, 1, 1, 1, 1] 24 =
      .exn "ZeroDivisionError" := by
  have h5 : lastIdx [1, 1, 1, 1, 1, 0, 1, 1, 1, 1] 5 = 0 := by
    norm_num [lastIdx, List.getD_cons_succ, List.getD_cons_zero]
  unfold predictPrice
  rw [if_neg (by simp), if_pos ⟨by simp, h5⟩]

/-- C5 amended: `predict_price` returns the `InsufficientData` result
exactly when fewer than 10 points are supplied, provided the plain-float
divisions are defined: below 10 points it always returns the error
result, and with ≥ 10 points, nonzero 5th-from-last and 10th-from-last
prices, `periods_ahead ≥ 1`, and a nonzero last price when the length is
below 20 (from 20 points on the final division is a numpy operation that
yields inf/nan instead of raising), it returns a forecast with no error
(a zero 5th-from-last price instead raises, see the counterexample). -/
theorem predict_insufficient_data_threshold :
    (∀ (noise : ℕ → ℝ) (prices : List ℝ) (periodsAhead : ℕ), prices.length < 10 →
      predictPrice noise prices periodsAhead =
        .errResult "Insufficient data for prediction") ∧
    (∀ (noise : ℕ → ℝ) (prices : List ℝ) (periodsAhead : ℕ),
      10 ≤ prices.length → lastIdx prices 5 ≠ 0 → lastIdx prices 10 ≠ 0 →
      1 ≤ periodsAhead → (prices.length < 20 → lastIdx prices 1 ≠ 0) →
      ∃ f, predictPrice noise prices periodsAhead = .ok f) := by
  constructor
  · intro noise prices periods h
    unfold predictPrice
    rw [if_pos h]
  · intro noise prices periods h10 h5 hm hp h1
    exact ⟨_, predictPrice_eq_ok noise prices periods h10 h5 hm (by omega) h1⟩

/-- Witness for C5's amended theorem: the spec's 10-point scenario returns
a forecast, the 9-point prefix returns the `InsufficientData` result. -/
theorem predict_insufficient_data_threshold_witness :
    predictPrice (fun _ => 0) [100, 102, 101, 105, 107, 106, 110, 108, 112] 24 =
      .errResult "Insufficient data for prediction" ∧
    ∃ f, predictPrice (fun _ => 0)
      [100, 102, 101, 105, 107, 106, 110, 108, 112, 115] 24 = .ok f :=
  ⟨predict_insufficient_data_threshold.1 (fun _ => 0) _ 24 (by simp),
    predict_insufficient_data_threshold.2 (fun _ => 0) _ 24 (by simp)
      (by norm_num [lastIdx, List.getD_cons_succ, List.getD_cons_zero])
      (by norm_num [lastIdx, List.getD_cons_succ, List.getD_cons_zero])
      (by norm_num)
      (fun _ => by norm_num [lastIdx, List.getD_cons_succ, List.getD_cons_zero])⟩

/-- C10: for every price list of length ≥ 10 with strictly positive
elements and every `periods_ahead ≥ 1` and any injected noise, the call
succeeds and every forecast point satisfies
`lower_bound ≤ predicted_price ≤ upper_bound`: the confidence half-width
`volatility · √i · current_price` is nonnegative and 2-decimal rounding is
monotone. -/
theorem forecast_bounds_contain_prediction (noise : ℕ → ℝ) (prices : List ℝ)
    (periodsAhead : ℕ) (h10 : 10 ≤ prices.length) (hpos : ∀ x ∈ prices, 0 < x)
    (hp : 1 ≤ periodsAhead) :
    ∃ f, predictPrice noise prices periodsAhead = .ok f ∧
      ∀ pt ∈ f.predictions,
        pt.lower_bound ≤ pt.predicted_price ∧ pt.predicted_price ≤ pt.upper_bound := by
  have h1 : 0 < lastIdx prices 1 := lastIdx_pos prices 1 (by omega) (by omega) hpos
  have h5 : 0 < lastIdx prices 5 := lastIdx_pos prices 5 (by omega) (by omega) hpos
  have hm : 0 < lastIdx prices 10 := lastIdx_pos prices 10 (by omega) (by omega) hpos
  refine ⟨_, predictPrice_eq_ok noise prices periodsAhead h10 (ne_of_gt h5)
    (ne_of_gt hm) (by omega) (fun _ => ne_of_gt h1), ?_⟩
  intro pt hpt
  unfold mkForecast at hpt
  dsimp only at hpt
  obtain ⟨j, _, rfl⟩ := List.mem_map.mp hpt
  unfold forecastPoint
  dsimp only
  have hci : 0 ≤ fcVolatility prices * Real.sqrt ((j + 1 : ℕ) : ℝ) * lastIdx prices 1 :=
    mul_nonneg (mul_nonneg (fcVolatility_nonneg prices hpos) (Real.sqrt_nonneg _))
      (le_of_lt h1)
  exact ⟨round2R_mono (by linarith), round2R_mono (by linarith)⟩

/-- Witness for C10 at a concrete input (flat positive 10-point series,
one period ahead, zero noise). -/
theorem forecast_bounds_contain_prediction_witness :
    ∃ f, predictPrice (fun _ => 0) (List.replicate 10 (1 : ℝ)) 1 = .ok f ∧
      ∀ pt ∈ f.predictions,
        pt.lower_bound ≤ pt.predicted_price ∧ pt.predicted_price ≤ pt.upper_bound :=
  forecast_bounds_contain_prediction (fun _ => 0) (List.replicate 10 (1 : ℝ)) 1
    (by simp) (fun x hx => by rw [List.eq_of_mem_replicate hx]; norm_num) (le_refl 1)
